import Mathlib

/-!
Shallow embedding of `src/static/py/BrettControllers/robot_entity.py`
(the `RobotEntity` class of the chairbot_server repository).

The source file is Python 2 (it uses the `print` statement), so `/` on two
integer literals is floor division; in particular the angle tolerance
`45 / 2` evaluates to `22`, not `22.5`.  Floating-point arithmetic is
idealised over the real numbers; `math.atan2` is embedded as the complex
argument, whose range `(-pi, pi]` matches `atan2` on exact (unsigned-zero)
real inputs.  ROS publishing (`sendCommand`) is I/O: the embedding records
the command that would be dispatched in the `sent` field of the outcome of
`move` instead of performing the publish.
-/

namespace RobotEntity

/-- Modelled from the spec: the `CommandClass` type lives in the
`robot_command` module, which is not part of this repository snapshot.  The
spec gives the command vocabulary {Stop, Forward, TurnLeft, TurnRight, None}
where `None` is a sentinel meaning no command should be dispatched; the
`Right`/`Left` constructor names follow the strings used at the call sites in
`generateCommand`. -/
inductive CommandClass where
  | Stop
  | Forward
  | Right
  | Left
  | NoCommand
deriving DecidableEq, Repr

/-- Modelled from the spec: `isNothing` (used by `move` to decide whether to
dispatch) recognises exactly the no-dispatch sentinel. -/
def CommandClass.isNothing : CommandClass → Bool
  | .NoCommand => true
  | _ => false

/-- Python `math.atan2 y x` idealised over the reals: the argument of the
complex number `x + y*i`, lying in `(-pi, pi]`. -/
noncomputable def atan2 (y x : ℝ) : ℝ := Complex.arg ⟨x, y⟩

/-- A pose or goal value: the source unpacks both as three-element sequences
`[x, y, angle]`. -/
abbrev Triple := ℝ × ℝ × ℝ

/-- Embeds `_calculateDistanceToGoal`: Euclidean distance between the goal
and the current coordinates (the third components are ignored). -/
noncomputable def calculateDistanceToGoal (goal coords : Triple) : ℝ :=
  Real.sqrt ((goal.1 - coords.1) ^ 2 + (goal.2.1 - coords.2.1) ^ 2)

/-- Embeds `_calculateAngleToGoal`:
`theta = atan2(goaly - curry, goalx - currx); return theta * 180 / pi + 180`. -/
noncomputable def calculateAngleToGoal (goal coords : Triple) : ℝ :=
  atan2 (goal.2.1 - coords.2.1) (goal.1 - coords.1) * 180 / Real.pi + 180

/-- Embeds `distTolerance = 10  # pixels` from `generateCommand`. -/
def distTolerance : ℝ := 10

/-- Embeds `angleTolerance = 45 / 2  # degrees` from `generateCommand`.  The
source is Python 2, where `/` on two ints is floor division, so the value is
the integer 22 (promoted to float on use), not 22.5. -/
def angleTolerance : ℝ := ((45 / 2 : ℤ) : ℝ)

/-- Embeds `generateCommand`: Stop when the distance to goal is (strictly)
below `distTolerance`; otherwise Forward when
`goalAngle + angleTolerance > currAngle and goalAngle - angleTolerance < currAngle`
(strict comparisons as written); otherwise turn Right when
`goalAngle < currAngle` and Left otherwise. -/
noncomputable def generateCommand (goal coords : Triple) : CommandClass :=
  let dist := calculateDistanceToGoal goal coords
  if dist < distTolerance then .Stop
  else
    let goalAngle := calculateAngleToGoal goal coords
    let currAngle := coords.2.2
    if goalAngle + angleTolerance > currAngle ∧ goalAngle - angleTolerance < currAngle
    then .Forward
    else if goalAngle < currAngle then .Right
    else .Left

/-- The mutable fields of a `RobotEntity` (`__init__`): an id and optional
coordinates and goal.  The scalar type is a parameter because
`updateCoords`/`updateGoal` never inspect the numbers they store; the
decision functions instantiate it at `ℝ`. -/
structure RobotState (α : Type) where
  robotId : ℕ
  coords : Option (α × α × α)
  goal : Option (α × α × α)

/-- Embeds `updateCoords`: `self.coords = newCoords`, unconditionally. -/
def updateCoords {α : Type} (s : RobotState α) (newCoords : Option (α × α × α)) :
    RobotState α :=
  { s with coords := newCoords }

/-- Embeds `updateGoal`: prints a log line (I/O, not modelled) and then
`self.goal = newGoal`, unconditionally. -/
def updateGoal {α : Type} (s : RobotState α) (newGoal : Option (α × α × α)) :
    RobotState α :=
  { s with goal := newGoal }

/-- Embeds `clearGoal`: `self.goal = None`. -/
def clearGoal {α : Type} (s : RobotState α) : RobotState α :=
  { s with goal := none }

/-- A scalar value as Python would pass it to `updateCoords`/`updateGoal`:
a finite real or one of the non-finite floats.  Those two methods are
type-agnostic in the source, so the parametric `RobotState` can be
instantiated here to state claims about non-finite inputs. -/
inductive PyFloat where
  | finite (x : ℝ)
  | nan
  | inf
  | neginf

/-- The error raised by `move`:
`SystemError('Location coordinates not defined for robot ...')`. -/
inductive MoveError where
  | missingPosition (robotId : ℕ)
deriving DecidableEq, Repr

/-- The observable outcome of one `move` call: the entity state after the
call (Python mutations persist even when an exception is raised), the
returned boolean or the raised error, and the command handed to
`sendCommand` (none when nothing was dispatched). -/
structure MoveOutcome where
  state : RobotState ℝ
  result : Except MoveError Bool
  sent : Option CommandClass

/-- Embeds `move(newGoal=None)`: assign `self.goal = newGoal` when
`newGoal != None`; return False when the goal is absent (a stored goal is a
non-empty tuple, hence truthy, so Python truthiness coincides with the
`Option` test); raise when the coordinates are absent; otherwise compute the
command, return False without dispatching when it `isNothing`, else dispatch
it and return True. -/
noncomputable def move (s : RobotState ℝ) (newGoal : Option Triple) : MoveOutcome :=
  let s1 := match newGoal with
    | some _ => { s with goal := newGoal }
    | none => s
  match s1.goal with
  | none => ⟨s1, .ok false, none⟩
  | some g =>
    match s1.coords with
    | none => ⟨s1, .error (.missingPosition s1.robotId), none⟩
    | some c =>
      let command := generateCommand g c
      if command.isNothing then ⟨s1, .ok false, none⟩
      else ⟨s1, .ok true, some command⟩

/-! Basic evaluation lemmas shared by several claims. -/

theorem angleTolerance_val : angleTolerance = 22 := by
  norm_num [angleTolerance]

theorem distTolerance_val : distTolerance = 10 := rfl

theorem arg_east : Complex.arg ⟨100, 0⟩ = 0 := by
  rw [show (⟨100, 0⟩ : ℂ) = ((100:ℝ):ℂ) from rfl]
  exact Complex.arg_ofReal_of_nonneg (by norm_num)

/-- A goal 100 units due east of the current position has bearing 180
(whatever the two heading components are). -/
theorem angle_east (a b : ℝ) : calculateAngleToGoal (100, 0, a) (0, 0, b) = 180 := by
  simp only [calculateAngleToGoal, atan2]
  norm_num [arg_east]

/-- A goal 100 units due east of the current position is at distance 100. -/
theorem dist_east (a b : ℝ) : calculateDistanceToGoal (100, 0, a) (0, 0, b) = 100 := by
  simp only [calculateDistanceToGoal]
  rw [show ((100:ℝ) - 0) ^ 2 + ((0:ℝ) - 0) ^ 2 = 100 ^ 2 by norm_num,
    Real.sqrt_sq (by norm_num)]

/-! Claim C1: the forward-vs-turn angle tolerance. -/

/-- C1 counterexample: the angle tolerance is not 22.5 (the source is
Python 2, so `45 / 2` is 22), and behaviour shows it: with bearing 180,
heading 202.25 and distance 100 the command is `Right`, whereas a 22.5
threshold would have put the heading within tolerance and produced
`Forward`. -/
theorem c1_tolerance_not_half_of_45 :
    angleTolerance ≠ 22.5 ∧
    generateCommand (100, 0, 0) (0, 0, 202.25) = CommandClass.Right := by
  constructor
  · rw [angleTolerance_val]; norm_num
  · simp only [generateCommand, dist_east, angle_east, angleTolerance_val, distTolerance_val]
    norm_num

/-- C1 amended: the angle tolerance used by `generateCommand` is exactly 22
degrees (`45 / 2` under Python 2 integer division): whenever the distance
check does not fire, the command is `Forward` exactly when the bearing is
within a strict 22-degree band of the heading. -/
theorem c1_forward_threshold_is_22 :
    angleTolerance = 22 ∧
    ∀ goal coords : Triple, distTolerance ≤ calculateDistanceToGoal goal coords →
      (generateCommand goal coords = CommandClass.Forward ↔
        calculateAngleToGoal goal coords + 22 > coords.2.2 ∧
        calculateAngleToGoal goal coords - 22 < coords.2.2) := by
  refine ⟨angleTolerance_val, fun goal coords hd => ?_⟩
  simp only [generateCommand, angleTolerance_val]
  rw [if_neg (not_lt.mpr hd)]
  split_ifs with h h2 <;> simp_all

/-- C1 witness for the amended theorem at bearing 180, heading 180,
distance 100. -/
theorem c1_forward_threshold_is_22_witness :
    distTolerance ≤ calculateDistanceToGoal (100, 0, 0) (0, 0, 180) ∧
    (generateCommand (100, 0, 0) (0, 0, 180) = CommandClass.Forward ↔
      calculateAngleToGoal (100, 0, 0) (0, 0, 180) + 22 > (180:ℝ) ∧
      calculateAngleToGoal (100, 0, 0) (0, 0, 180) - 22 < (180:ℝ)) := by
  have hd : distTolerance ≤ calculateDistanceToGoal (100, 0, 0) (0, 0, 180) := by
    rw [dist_east, distTolerance_val]; norm_num
  exact ⟨hd, c1_forward_threshold_is_22.2 (100, 0, 0) (0, 0, 180) hd⟩

/-! Claim C2: behaviour exactly at the tolerance boundary. -/

/-- C2 counterexample: bearing 180, heading 202, distance 100.  The absolute
bearing-to-heading difference equals the angle tolerance exactly, yet the
command is `Right`, not `Forward`: the comparisons in the source are strict,
so the boundary is excluded. -/
theorem c2_boundary_not_forward :
    distTolerance ≤ calculateDistanceToGoal (100, 0, 0) (0, 0, 202) ∧
    |calculateAngleToGoal (100, 0, 0) (0, 0, 202) - 202| = angleTolerance ∧
    generateCommand (100, 0, 0) (0, 0, 202) = CommandClass.Right := by
  refine ⟨?_, ?_, ?_⟩
  · rw [dist_east, distTolerance_val]; norm_num
  · rw [angle_east, angleTolerance_val]; norm_num
  · simp only [generateCommand, dist_east, angle_east, angleTolerance_val, distTolerance_val]
    norm_num

/-- C2 amended: when the distance is at least the distance tolerance and the
absolute difference between bearing and heading equals the angle tolerance
exactly, the strict comparisons exclude the boundary and `generateCommand`
returns a turn command (`Right` or `Left`), never `Forward`. -/
theorem c2_boundary_turns (goal coords : Triple)
    (hd : distTolerance ≤ calculateDistanceToGoal goal coords)
    (ha : |calculateAngleToGoal goal coords - coords.2.2| = angleTolerance) :
    generateCommand goal coords = CommandClass.Right ∨
    generateCommand goal coords = CommandClass.Left := by
  rw [angleTolerance_val] at ha
  simp only [generateCommand]
  rw [if_neg (not_lt.mpr hd)]
  have hcond : ¬(calculateAngleToGoal goal coords + angleTolerance > coords.2.2 ∧
      calculateAngleToGoal goal coords - angleTolerance < coords.2.2) := by
    rw [angleTolerance_val]
    rcases (abs_eq (by norm_num : (0:ℝ) ≤ 22)).mp ha with h | h
    · rintro ⟨-, h2⟩; linarith
    · rintro ⟨h1, -⟩; linarith
  rw [if_neg hcond]
  split_ifs with h
  · exact Or.inl rfl
  · exact Or.inr rfl

/-- C2 witness: the amended theorem applied at bearing 180, heading 202,
distance 100. -/
theorem c2_boundary_turns_witness :
    distTolerance ≤ calculateDistanceToGoal (100, 0, 0) (0, 0, 202) ∧
    |calculateAngleToGoal (100, 0, 0) (0, 0, 202) - (0, 0, (202:ℝ)).2.2| = angleTolerance ∧
    (generateCommand (100, 0, 0) (0, 0, 202) = CommandClass.Right ∨
      generateCommand (100, 0, 0) (0, 0, 202) = CommandClass.Left) := by
  have hd : distTolerance ≤ calculateDistanceToGoal (100, 0, 0) (0, 0, 202) := by
    rw [dist_east, distTolerance_val]; norm_num
  have ha : |calculateAngleToGoal (100, 0, 0) (0, 0, 202) - (0, 0, (202:ℝ)).2.2|
      = angleTolerance := by
    rw [angle_east, angleTolerance_val]; norm_num
  exact ⟨hd, ha, c2_boundary_turns (100, 0, 0) (0, 0, 202) hd ha⟩

/-! Claim C3: range of the computed bearing. -/

/-- C3 counterexample: a goal due west of the current position.
`atan2` returns pi there, so the bearing is exactly 360 — not strictly less
than 360. -/
theorem c3_bearing_reaches_360 :
    calculateAngleToGoal (-100, 0, 0) (0, 0, 0) = 360 ∧
    ¬ calculateAngleToGoal (-100, 0, 0) (0, 0, 0) < 360 := by
  have h : calculateAngleToGoal (-100, 0, 0) (0, 0, 0) = 360 := by
    simp only [calculateAngleToGoal, atan2]
    norm_num
    rw [show (⟨-100, 0⟩ : ℂ) = ((-100:ℝ):ℂ) from rfl,
      Complex.arg_ofReal_of_neg (by norm_num)]
    field_simp
    norm_num
  exact ⟨h, by rw [h]; norm_num⟩

/-- C3 amended: the bearing computed by `_calculateAngleToGoal` lies in the
half-open range `(0, 360]`: always strictly positive, and at most 360, with
360 attained (goal due west). -/
theorem c3_bearing_range (goal coords : Triple) :
    0 < calculateAngleToGoal goal coords ∧ calculateAngleToGoal goal coords ≤ 360 := by
  simp only [calculateAngleToGoal, atan2]
  set θ := Complex.arg ⟨goal.1 - coords.1, goal.2.1 - coords.2.1⟩ with hθ
  have h1 : -Real.pi < θ := Complex.neg_pi_lt_arg _
  have h2 : θ ≤ Real.pi := Complex.arg_le_pi _
  have hπ : 0 < Real.pi := Real.pi_pos
  constructor
  · have : -180 < θ * 180 / Real.pi := by
      rw [lt_div_iff₀ hπ]; nlinarith
    linarith
  · have : θ * 180 / Real.pi ≤ 180 := by
      rw [div_le_iff₀ hπ]; nlinarith
    linarith

/-! Claim C4: Stop exactly when within the distance tolerance. -/

/-- C4: `generateCommand` returns `Stop` if and only if the Euclidean
distance from pose to goal is strictly below the distance tolerance;
otherwise the result is one of the motion commands, regardless of heading. -/
theorem c4_stop_iff_close (goal coords : Triple) :
    generateCommand goal coords = CommandClass.Stop ↔
      calculateDistanceToGoal goal coords < distTolerance := by
  simp only [generateCommand]
  split_ifs with h h2 h3 <;> simp_all

/-! Claim C5: goal present, pose absent. -/

/-- C5: when a goal is stored but the coordinates are absent, `move` with no
new goal raises the missing-position error and dispatches no command. -/
theorem c5_missing_position (s : RobotState ℝ) (g : Triple)
    (hg : s.goal = some g) (hc : s.coords = none) :
    (move s none).result = Except.error (MoveError.missingPosition s.robotId) ∧
    (move s none).sent = none := by
  simp [move, hg, hc]

/-- C5 witness: robot 7 with no coordinates and goal (1, 2, 3). -/
theorem c5_missing_position_witness :
    (RobotState.mk 7 none (some (1, 2, 3)) : RobotState ℝ).goal = some (1, 2, 3) ∧
    (RobotState.mk 7 none (some (1, 2, 3)) : RobotState ℝ).coords = none ∧
    ((move (RobotState.mk 7 none (some (1, 2, 3))) none).result
        = Except.error (MoveError.missingPosition 7) ∧
      (move (RobotState.mk 7 none (some (1, 2, 3))) none).sent = none) :=
  ⟨rfl, rfl, c5_missing_position (RobotState.mk 7 none (some (1, 2, 3))) (1, 2, 3) rfl rfl⟩

/-! Claim C6: goal absent. -/

/-- C6: when no goal is stored, `move` with no new goal returns False with
no error and dispatches nothing, whatever the coordinates are (in
particular even when they are absent too). -/
theorem c6_no_goal (s : RobotState ℝ) (hg : s.goal = none) :
    move s none = ⟨s, Except.ok false, none⟩ := by
  simp [move, hg]

/-- C6 witness: robot 3 with neither coordinates nor goal. -/
theorem c6_no_goal_witness :
    (RobotState.mk 3 none none : RobotState ℝ).goal = none ∧
    move (RobotState.mk 3 none none : RobotState ℝ) none
      = ⟨RobotState.mk 3 none none, Except.ok false, none⟩ :=
  ⟨rfl, c6_no_goal (RobotState.mk 3 none none) rfl⟩

/-! Claim C9: the decision step does not mutate the state. -/

/-- C9: with pose and goal both present, `move` with no new goal leaves the
whole state unchanged — in particular it never clears the goal, even when
the generated command is `Stop`. -/
theorem c9_move_preserves_state (s : RobotState ℝ) (c g : Triple)
    (hc : s.coords = some c) (hg : s.goal = some g) :
    (move s none).state = s := by
  simp only [move, hg, hc]
  cases h : (generateCommand g c).isNothing <;> simp [h]

/-- C9 witness: robot 2 at the origin with goal (0, 0, 0) — the distance is
0, so the command is `Stop`, and the state (goal included) is untouched. -/
theorem c9_move_preserves_state_witness :
    (RobotState.mk 2 (some (0, 0, 0)) (some (0, 0, 0)) : RobotState ℝ).coords
      = some (0, 0, 0) ∧
    (RobotState.mk 2 (some (0, 0, 0)) (some (0, 0, 0)) : RobotState ℝ).goal
      = some (0, 0, 0) ∧
    (move (RobotState.mk 2 (some (0, 0, 0)) (some (0, 0, 0))) none).state
      = RobotState.mk 2 (some (0, 0, 0)) (some (0, 0, 0)) :=
  ⟨rfl, rfl,
    c9_move_preserves_state (RobotState.mk 2 (some (0, 0, 0)) (some (0, 0, 0)))
      (0, 0, 0) (0, 0, 0) rfl rfl⟩

/-! Claim C10: the goal assignment in `move` persists on the error path. -/

/-- C10: calling `move` with a new goal while the coordinates are absent
first stores the new goal and then raises the missing-position error, so
the mutation survives the error. -/
theorem c10_goal_mutation_persists (s : RobotState ℝ) (g : Triple)
    (hc : s.coords = none) :
    (move s (some g)).state.goal = some g ∧
    (move s (some g)).result = Except.error (MoveError.missingPosition s.robotId) := by
  simp [move, hc]

/-- C10 witness: robot 5 with no coordinates, old goal absent, new goal
(4, 5, 6). -/
theorem c10_goal_mutation_persists_witness :
    (RobotState.mk 5 none none : RobotState ℝ).coords = none ∧
    ((move (RobotState.mk 5 none none : RobotState ℝ) (some (4, 5, 6))).state.goal
        = some (4, 5, 6) ∧
      (move (RobotState.mk 5 none none : RobotState ℝ) (some (4, 5, 6))).result
        = Except.error (MoveError.missingPosition 5)) :=
  ⟨rfl, c10_goal_mutation_persists (RobotState.mk 5 none none) (4, 5, 6) rfl⟩

/-! Claim C8: no validation at the update boundary. -/

/-- C8 counterexample: non-finite coordinate triples passed to
`updateCoords` and `updateGoal` are not rejected — there is no error path at
all — and the stored state does change. -/
theorem c8_nonfinite_is_stored :
    (updateCoords (RobotState.mk 0 none none : RobotState PyFloat)
        (some (.nan, .inf, .neginf))).coords = some (.nan, .inf, .neginf) ∧
    (updateCoords (RobotState.mk 0 none none : RobotState PyFloat)
        (some (.nan, .inf, .neginf))).coords
      ≠ (RobotState.mk 0 none none : RobotState PyFloat).coords ∧
    (updateGoal (RobotState.mk 0 none none : RobotState PyFloat)
        (some (.nan, .nan, .nan))).goal = some (.nan, .nan, .nan) ∧
    (updateGoal (RobotState.mk 0 none none : RobotState PyFloat)
        (some (.nan, .nan, .nan))).goal
      ≠ (RobotState.mk 0 none none : RobotState PyFloat).goal := by
  refine ⟨rfl, ?_, rfl, ?_⟩ <;> simp [updateCoords, updateGoal]

/-- C8 amended: `updateCoords` and `updateGoal` perform no validation
whatsoever: any input — non-finite values included, since the functions
never inspect the scalars — is stored unconditionally as a full
replacement, the other field is untouched, and no error is ever raised
(there is no error channel). -/
theorem c8_update_never_rejects {α : Type} (s : RobotState α)
    (nc ng : Option (α × α × α)) :
    (updateCoords s nc).coords = nc ∧ (updateCoords s nc).goal = s.goal ∧
    (updateGoal s ng).goal = ng ∧ (updateGoal s ng).coords = s.coords :=
  ⟨rfl, rfl, rfl, rfl⟩

/-! Claim C7: the angle-wraparound gap. -/

/-- The wraparound goal: 100 units away at a true bearing of 359 degrees
(the direction `179` degrees in `atan2` terms). -/
noncomputable def wrapGoal : Triple :=
  (-(100 * Real.cos (Real.pi / 180)), 100 * Real.sin (Real.pi / 180), 0)

/-- The wraparound pose: at the origin with heading 1 degree. -/
def wrapCoords : Triple := (0, 0, 1)

theorem arg_wrap :
    Complex.arg ⟨-(100 * Real.cos (Real.pi / 180)), 100 * Real.sin (Real.pi / 180)⟩
      = Real.pi - Real.pi / 180 := by
  rw [show (⟨-(100 * Real.cos (Real.pi / 180)), 100 * Real.sin (Real.pi / 180)⟩ : ℂ)
      = ((100:ℝ) : ℂ) * (↑(Real.cos (Real.pi - Real.pi / 180))
        + ↑(Real.sin (Real.pi - Real.pi / 180)) * Complex.I) by
    rw [Real.cos_pi_sub, Real.sin_pi_sub]
    apply Complex.ext <;>
      simp only [Complex.ofReal_neg, Complex.add_re, Complex.add_im, Complex.mul_re,
        Complex.mul_im, Complex.ofReal_re, Complex.ofReal_im, Complex.I_re, Complex.I_im,
        Complex.neg_re, Complex.neg_im] <;> ring]
  rw [Complex.arg_real_mul _ (by norm_num : (0:ℝ) < 100)]
  rw [Complex.ofReal_cos, Complex.ofReal_sin]
  apply Complex.arg_cos_add_sin_mul_I
  have := Real.pi_pos
  exact ⟨by linarith, by linarith⟩

theorem angle_wrap : calculateAngleToGoal wrapGoal wrapCoords = 359 := by
  simp only [calculateAngleToGoal, atan2, wrapGoal, wrapCoords, sub_zero]
  rw [arg_wrap]
  have h := Real.pi_ne_zero
  field_simp
  ring

theorem dist_wrap : calculateDistanceToGoal wrapGoal wrapCoords = 100 := by
  simp only [calculateDistanceToGoal, wrapGoal, wrapCoords, sub_zero]
  have h : (-(100 * Real.cos (Real.pi / 180))) ^ 2 + (100 * Real.sin (Real.pi / 180)) ^ 2
      = 10000 * (Real.sin (Real.pi / 180) ^ 2 + Real.cos (Real.pi / 180) ^ 2) := by ring
  rw [h, Real.sin_sq_add_cos_sq,
    show (10000:ℝ) * 1 = 100 ^ 2 by norm_num, Real.sqrt_sq (by norm_num)]

theorem gc_wrap : generateCommand wrapGoal wrapCoords = CommandClass.Left := by
  simp only [generateCommand, dist_wrap, angle_wrap, angleTolerance_val,
    distTolerance_val]
  norm_num [wrapCoords]

/-- C7: wraparound gap.  There are a pose and a goal whose true angular
separation modulo 360 is within the angle tolerance — a goal bearing of
exactly 359 degrees against a heading of 1 degree, two degrees apart on the
circle — yet `generateCommand` returns a turn command (`Left`) rather than
`Forward`, because the tolerance comparison never reduces angles
modulo 360. -/
theorem c7_wraparound_misjudged :
    ∃ (goal coords : Triple) (k : ℤ),
      |calculateAngleToGoal goal coords - coords.2.2 - 360 * (k : ℝ)| ≤ angleTolerance ∧
      distTolerance ≤ calculateDistanceToGoal goal coords ∧
      calculateAngleToGoal goal coords = 359 ∧
      coords.2.2 = 1 ∧
      (generateCommand goal coords = CommandClass.Left ∨
        generateCommand goal coords = CommandClass.Right) ∧
      generateCommand goal coords ≠ CommandClass.Forward := by
  refine ⟨wrapGoal, wrapCoords, 1, ?_, ?_, angle_wrap, rfl, Or.inl gc_wrap, ?_⟩
  · rw [angle_wrap, angleTolerance_val]
    norm_num [wrapCoords]
  · rw [dist_wrap, distTolerance_val]
    norm_num
  · rw [gc_wrap]
    simp

end RobotEntity
